import Mathlib

/-!
Shallow embedding of the gateway core of `stonescriptphp-files`:
token verification and identity extraction (`src/auth.js`), the JWKS key
resolver (`jwks-client.js`), the authorization middleware
(`src/authorization.js`), scope-based blob addressing and ownership checks
(`src/azure-storage.js`), and the delete request pipeline as wired in the
server factory.  JavaScript objects become Lean structures; absent or
`undefined` string fields become `Option String`; JS truthiness of strings
(`undefined`, `null` and `""` are falsy) is made explicit.  External effects
(cryptographic signature checks, the network fetch of a key set, the oracle
HTTP call) are passed in as explicit outcome values, so every function is
executable.
-/

namespace StoneFiles

/-- JS truthiness of an optional string: `undefined`/`null` and the empty
string are falsy, every other string is truthy. -/
def optTruthy : Option String → Bool
  | some s => s ≠ ""
  | none => false

/-- JS `a || b` on optional strings: the left operand when truthy, else the
right operand unchanged. -/
def jsOr (a b : Option String) : Option String :=
  if optTruthy a then a else b

/-- JS `a || "d"` where the result is used as a plain string. -/
def jsStrOr (o : Option String) (d : String) : String :=
  if optTruthy o then o.getD d else d

/-- JS `a || null`: keep a truthy value, collapse any falsy value to `null`. -/
def jsOrNull (a : Option String) : Option String :=
  if optTruthy a then a else none

/-- JS `s.startsWith(p)`, as a structural recursion over the character
lists so that it evaluates inside the kernel. -/
def jsStartsWith (s p : String) : Bool :=
  p.data.isPrefixOf s.data

/-! ## Token model (`src/auth.js`, `jwks-client.js`)

A decoded JWT: the self-describing header fields `alg` and `kid`, the claim
payload, and the outcome of the external cryptographic checks (whether the
signature verifies under a given algorithm name, and whether the token is
expired at verification time). -/

/-- The claim payload fields read by `src/auth.js`. -/
structure JwtPayload where
  sub : Option String := none
  user_id : Option String := none
  userId : Option String := none
  id : Option String := none
  tenant_id : Option String := none
  tid : Option String := none
  tenant_uuid : Option String := none
  email : Option String := none
  iss : Option String := none
  roles : Option (List String) := none
deriving DecidableEq, Repr

/-- A decoded token together with the outcome of the external crypto checks:
`sigValidFor a` says whether the token's signature verifies under algorithm
`a` with the key handed to `jwt.verify`, and `expired` whether the `exp`
claim is in the past. -/
structure TokenModel where
  headerAlg : Option String := none
  headerKid : Option String := none
  payload : JwtPayload := {}
  sigValidFor : String → Bool := fun _ => false
  expired : Bool := false

inductive VerifyError where
  | invalidAlgorithm
  | signatureInvalid
  | tokenExpired
deriving DecidableEq, Repr

/-- The algorithm allow-list passed to `jwt.verify` by `createAuthMiddleware`
(`src/auth.js` line 30). -/
def allowedAlgs : List String := ["RS256", "ES256", "HS256"]

/-- `jwt.verify(token, key, { algorithms })`: reject when the token's header
algorithm is outside the supplied list, then check the signature, then
expiry, and return the decoded payload. -/
def jwtVerify (algorithms : List String) (tok : TokenModel) :
    Except VerifyError JwtPayload :=
  let alg := tok.headerAlg.getD "none"
  if algorithms.contains alg = false then .error .invalidAlgorithm
  else if tok.sigValidFor alg = false then .error .signatureInvalid
  else if tok.expired then .error .tokenExpired
  else .ok tok.payload

/-- The user object attached to the request (`req.user`) on success. -/
structure Identity where
  id : String
  tenantId : Option String := none
  email : Option String := none
  roles : List String := []
deriving DecidableEq, Repr

inductive AuthResult where
  | ok (user : Identity)
  | unauthorized (message : String)
deriving DecidableEq, Repr

/-- Claim extraction of `src/auth.js` lines 33-54 (identical in lines
113-133): `userId = decoded.sub || decoded.user_id || decoded.userId ||
decoded.id`, a 401 when that chain is falsy, `tenantId = decoded.tenant_id
|| decoded.tid || decoded.tenant_uuid || null`, then
`req.user = ((id := userId, tenantId, email, roles := decoded.roles || [],
...decoded))` — the object spread re-assigns `id` to the raw `id` claim
whenever that claim is present on the payload, because later keys win. -/
def extractUser (p : JwtPayload) : AuthResult :=
  let userId := jsOr p.sub (jsOr p.user_id (jsOr p.userId p.id))
  if optTruthy userId = false then
    .unauthorized "Token missing user identifier"
  else
    let attachedId := match p.id with
      | some v => v
      | none => userId.getD ""
    .ok { id := attachedId
          tenantId := jsOrNull (jsOr p.tenant_id (jsOr p.tid p.tenant_uuid))
          email := p.email
          roles := p.roles.getD [] }

/-- The first present non-empty claim of the priority list
`[sub, user_id, userId, id]` — the subject-resolution rule stated by the
specification. -/
def prioritySubject (p : JwtPayload) : Option String :=
  jsOrNull (jsOr p.sub (jsOr p.user_id (jsOr p.userId p.id)))

/-- Static-key middleware body `authenticateJWT` (`src/auth.js` lines
27-78), for a request whose bearer token decoded to `tok`: verify with the
fixed allow-list, map the error taxonomy to 401 messages, extract the
user. -/
def authenticateJWT (tok : TokenModel) : AuthResult :=
  match jwtVerify allowedAlgs tok with
  | .error .tokenExpired => .unauthorized "Token expired"
  | .error _ => .unauthorized "Invalid token"
  | .ok p => extractUser p

/-! ## JWKS key resolver (`jwks-client.js`) -/

/-- One configured auth server: `(issuer, jwksUrl, cacheTtl?)` with
`cacheTtl` in seconds. -/
structure AuthServer where
  issuer : String
  jwksUrl : String
  cacheTtl : Option Nat := none
deriving DecidableEq, Repr

/-- The predicate of the single-pass lookup
`authServers.find(s => s.issuer === iss || s.issuer === '*')`. -/
def serverMatches (iss : Option String) (s : AuthServer) : Bool :=
  iss == some s.issuer || s.issuer == "*"

/-- Server selection of `JwksClient.getSigningKey` step 2:
`find(s => s.issuer === iss || s.issuer === '*') || authServers[0]`, with
`none` when the configured list is empty (the subsequent throw). -/
def selectServer (servers : List AuthServer) (iss : Option String) :
    Option AuthServer :=
  match servers.find? (serverMatches iss) with
  | some s => some s
  | none => servers.head?

structure Jwk where
  kid : String
  material : String := ""
deriving DecidableEq, Repr

structure Jwks where
  keys : List Jwk
deriving DecidableEq, Repr

structure CacheEntry where
  jwks : Jwks
  fetchedAt : Nat
deriving DecidableEq, Repr

/-- The `Map` from issuer key to cached key set, as an association list. -/
abbrev JwksCache := List (String × CacheEntry)

def cacheGet (c : JwksCache) (k : String) : Option CacheEntry :=
  (c.find? (fun e => e.1 == k)).map (·.2)

def cacheSet (c : JwksCache) (k : String) (v : CacheEntry) : JwksCache :=
  match c with
  | [] => [(k, v)]
  | (k', v') :: rest =>
      if k' == k then (k, v) :: rest else (k', v') :: cacheSet rest k v

/-- Outcome of the single `fetch(serverConfig.jwksUrl)` network call. -/
inductive FetchResult where
  | ok (jwks : Jwks)
  | httpError (status : Nat)
deriving DecidableEq, Repr

/-- `this.defaultCacheTtl = 3600 * 1000` milliseconds. -/
def defaultCacheTtlMs : Nat := 3600 * 1000

/-- `(serverConfig.cacheTtl || this.defaultCacheTtl / 1000) * 1000` — a
missing or zero (falsy) per-server TTL falls back to one hour. -/
def effectiveTtlMs (cfg : AuthServer) : Nat :=
  (match cfg.cacheTtl with
   | some n => if n = 0 then defaultCacheTtlMs / 1000 else n
   | none => defaultCacheTtlMs / 1000) * 1000

deriving instance DecidableEq for Except

/-- Result of `fetchJwks`: the returned or thrown value, the cache as left
behind, and how many network fetches were performed. -/
structure FetchOutcome where
  result : Except String Jwks
  cache : JwksCache
  fetches : Nat
deriving DecidableEq, Repr

/-- The miss path of `JwksClient.fetchJwks` (lines 45-53): one fetch; on a
non-success response throw and leave the cache untouched; on success store
the fresh key set under the issuer key with `fetchedAt = now` and return
it. -/
def fetchJwksMiss (cache : JwksCache) (now : Nat) (issuerKey : String)
    (cfg : AuthServer) (net : FetchResult) : FetchOutcome :=
  match net with
  | .ok jwks => ⟨.ok jwks, cacheSet cache issuerKey ⟨jwks, now⟩, 1⟩
  | .httpError status =>
      ⟨.error ("Failed to fetch JWKS from " ++ cfg.jwksUrl ++ ": "
         ++ toString status), cache, 1⟩

/-- `JwksClient.fetchJwks` (lines 37-54): serve a cached entry while
`now - fetchedAt < cacheTtl`, otherwise perform the miss path. -/
def fetchJwks (cache : JwksCache) (now : Nat) (issuerKey : String)
    (cfg : AuthServer) (net : FetchResult) : FetchOutcome :=
  match cacheGet cache issuerKey with
  | some entry =>
      if now - entry.fetchedAt < effectiveTtlMs cfg then
        ⟨.ok entry.jwks, cache, 0⟩
      else fetchJwksMiss cache now issuerKey cfg net
  | none => fetchJwksMiss cache now issuerKey cfg net

/-- `JwksClient.getSigningKey` (lines 12-35): select the auth server by the
token's issuer claim, fetch the (possibly cached) key set, look the key up
by the token's `kid`, and return it with the algorithm
`header.alg || 'RS256'` — an absent or empty (falsy) header algorithm
falls back to `RS256` — and the cache left by the fetch. -/
def getSigningKey (servers : List AuthServer) (cache : JwksCache)
    (now : Nat) (tok : TokenModel) (net : FetchResult) :
    Except String (Jwk × String × JwksCache) :=
  match selectServer servers tok.payload.iss with
  | none => .error "No auth server configured for issuer"
  | some server =>
    let out := fetchJwks cache now server.issuer server net
    match out.result with
    | .error e => .error e
    | .ok jwks =>
      match jwks.keys.find? (fun k => tok.headerKid == some k.kid) with
      | none => .error "Signing key not found for kid"
      | some jwk => .ok (jwk, jsStrOr tok.headerAlg "RS256", out.cache)

/-- JWKS middleware body `authenticateJwks` (`src/auth.js` lines 106-157):
resolve the signing key, then `jwt.verify(token, key,
(algorithms := [algorithm]))` — the allow-list is the singleton holding the
algorithm the resolver derived from the token's own header — then the same
claim extraction as the static middleware. -/
def authenticateJwks (servers : List AuthServer) (cache : JwksCache)
    (now : Nat) (tok : TokenModel) (net : FetchResult) : AuthResult :=
  match getSigningKey servers cache now tok net with
  | .error _ => .unauthorized "Token validation failed"
  | .ok (_key, algorithm, _cache) =>
    match jwtVerify [algorithm] tok with
    | .error .tokenExpired => .unauthorized "Token expired"
    | .error _ => .unauthorized "Invalid token"
    | .ok p => extractUser p

/-! ## Authorization middleware (`src/authorization.js`) -/

/-- The request fields the authorization middleware reads. -/
structure AuthzRequest where
  method : String
  path : String
  paramsId : Option String := none
  bodyResourceType : Option String := none
  bodyResourceId : Option Int := none
deriving DecidableEq, Repr

/-- Outcome of the oracle `fetch`: the `AbortError` raised when the
`AbortController` fires at the timeout, any other network/transport
rejection, or an HTTP response carrying the (possibly envelope-unwrapped)
decision fields. -/
inductive OracleOutcome where
  | timeout
  | networkError (message : String)
  | response (status : Nat) (allowed : Bool) (scope : Option String)
      (reason : Option String)
deriving DecidableEq, Repr

/-- What an Express middleware does with the request: call `next()` with
`req.fileScope` set, or terminate with a status, error label and message. -/
inductive MwStep where
  | next (fileScope : String)
  | respond (status : Nat) (error : String) (message : String)
deriving DecidableEq, Repr

/-- Action mapping of `src/authorization.js` lines 32-43: `POST /upload` is
`upload`, `GET /files/...` is `download`, `DELETE /files/...` is `delete`,
anything else is not a file operation. -/
def determineAction (method path : String) : Option String :=
  if method == "POST" && path == "/upload" then some "upload"
  else if method == "GET" && jsStartsWith path "/files/" then some "download"
  else if method == "DELETE" && jsStartsWith path "/files/" then some "delete"
  else none

/-- `Response.ok` of the Fetch API: status in the range 200-299. -/
def responseOk (status : Nat) : Bool :=
  200 ≤ status && status ≤ 299

/-- The configured branch of the authorization middleware
(`src/authorization.js` lines 29-123): map the request to an action (or
pass through with scope `user`); on `AbortError` (timeout) or any other
fetch failure respond 503; on a non-success response respond 403 with the
oracle's reason when the status is 403 and 503 otherwise; on success deny
with 403 unless `allowed`, else continue with `scope || 'user'`. -/
def authorizeConfigured (req : AuthzRequest) (oracle : OracleOutcome) :
    MwStep :=
  match determineAction req.method req.path with
  | none => .next "user"
  | some _action =>
    match oracle with
    | .timeout =>
        .respond 503 "Service Unavailable" "Authorization service unavailable"
    | .networkError _ =>
        .respond 503 "Service Unavailable" "Authorization service unavailable"
    | .response status allowed scope reason =>
      if responseOk status = false then
        if status = 403 then
          .respond 403 "Forbidden" (jsStrOr reason "Access denied")
        else
          .respond 503 "Service Unavailable"
            "Authorization service returned an error"
      else if allowed = false then
        .respond 403 "Forbidden" (jsStrOr reason "Access denied")
      else .next (jsStrOr scope "user")

/-- `createAuthorizationMiddleware(authorizationUrl, timeout)`: with no
(or falsy) URL the middleware is the pass-through that sets
`req.fileScope = 'user'` and calls `next()`; otherwise it runs the
configured branch. -/
def createAuthorizationMw (url : Option String) (_timeoutMs : Nat)
    (req : AuthzRequest) (oracle : OracleOutcome) : MwStep :=
  if optTruthy url = false then .next "user"
  else authorizeConfigured req oracle

/-! ## Blob addressing and ownership (`src/azure-storage.js`, the
tenant-scoped `AzureStorageClient`) -/

/-- The blob metadata written at upload and read back by
download/list/delete. -/
structure BlobMeta where
  tenant_id : String := ""
  user_id : String
  original_filename : String := ""
  content_type : String := ""
  uploaded_at : String := ""
  file_id : String
  scope : String := "user"
deriving DecidableEq, Repr

/-- A stored blob: its name (the path) and its metadata; Azure list results
may lack metadata, which the scan loops skip. -/
structure Blob where
  name : String
  metadata : Option BlobMeta := none
deriving DecidableEq, Repr

/-- The scope-based path root shared by `uploadFile`, `downloadFile`,
`listFiles` and `deleteFile`: scope `tenant` gives `tenantId/shared/`
(just `shared/` for a falsy tenantId), any other scope gives
`tenantId/userId/` (just `userId/` for a falsy tenantId). -/
def blobDir (tenantId : Option String) (userId : String) (scope : String) :
    String :=
  if scope == "tenant" then
    if optTruthy tenantId then tenantId.getD "" ++ "/shared/" else "shared/"
  else
    if optTruthy tenantId then tenantId.getD "" ++ "/" ++ userId ++ "/"
    else userId ++ "/"

/-- `originalFilename.split('.').pop()`. -/
def jsExtension (filename : String) : String :=
  (filename.splitOn ".").getLastD ""

/-- The blob name built by `uploadFile`:
scope root followed by `fileId.extension`. -/
def uploadBlobName (tenantId : Option String) (userId : String)
    (scope : String) (fileId : String) (originalFilename : String) : String :=
  blobDir tenantId userId scope ++ fileId ++ "." ++ jsExtension originalFilename

inductive StorageError where
  | unauthorized
  | notFound
deriving DecidableEq, Repr

/-- The loop condition `blob.metadata && blob.metadata.file_id === fileId`. -/
def blobScanMatch (fileId : String) (b : Blob) : Bool :=
  match b.metadata with
  | some m => m.file_id == fileId
  | none => false

/-- The shared `for await` scan of `downloadFile` and `deleteFile`: walk the
prefix-listed blobs, and on the first blob whose metadata carries the
requested `file_id` run the per-match body; throw `File not found` when the
loop ends without a match. -/
def scanBlobs {α : Type} (fileId : String)
    (onMatch : Blob → BlobMeta → Except StorageError α) :
    List Blob → Except StorageError α
  | [] => .error .notFound
  | b :: rest =>
    match b.metadata with
    | some m =>
        if m.file_id == fileId then onMatch b m
        else scanBlobs fileId onMatch rest
    | none => scanBlobs fileId onMatch rest

/-- The ownership check at the match site (`azure-storage.js` lines 343-345
and 443-445): only user-scoped operations compare the stored `user_id`
against the requesting user, throwing the Unauthorized error on mismatch;
tenant scope skips the check. -/
def ownershipGuard {α : Type} (scope userId : String) (m : BlobMeta)
    (payload : α) : Except StorageError α :=
  if scope == "user" && (m.user_id == userId) = false then
    .error .unauthorized
  else .ok payload

/-- Fields of the download response that come from blob metadata. -/
structure DownloadResult where
  fileName : String
  contentType : String
deriving DecidableEq, Repr

/-- `AzureStorageClient.downloadFile(fileId, tenantId, userId, scope)` for a
container holding `blobs`: list under the scope root, scan for the
`file_id`, enforce ownership for user scope, return the metadata. -/
def downloadFile (blobs : List Blob) (fileId : String)
    (tenantId : Option String) (userId : String) (scope : String) :
    Except StorageError DownloadResult :=
  scanBlobs fileId
    (fun _b m => ownershipGuard scope userId m
      ⟨m.original_filename, m.content_type⟩)
    (blobs.filter (fun b => jsStartsWith b.name (blobDir tenantId userId scope)))

/-- `AzureStorageClient.deleteFile(fileId, tenantId, userId, scope)`:
same scan and ownership check; the result is the name of the deleted
blob. -/
def deleteFile (blobs : List Blob) (fileId : String)
    (tenantId : Option String) (userId : String) (scope : String) :
    Except StorageError String :=
  scanBlobs fileId
    (fun b m => ownershipGuard scope userId m b.name)
    (blobs.filter (fun b => jsStartsWith b.name (blobDir tenantId userId scope)))

/-! ## Delete route and server pipeline (`src/routes/delete.js`,
the server factory wiring `authenticate, authorize, downloadLimiter,
createDeleteRouter(storage)`) -/

def isHexDigit (c : Char) : Bool :=
  c.isDigit || ('a' ≤ c.toLower && c.toLower ≤ 'f')

/-- The route's UUID test
`/^[0-9a-f]\x7b8\x7d-[0-9a-f]\x7b4\x7d-[0-9a-f]\x7b4\x7d-[0-9a-f]\x7b4\x7d-[0-9a-f]\x7b12\x7d$/i`:
36 characters, hyphens at positions 8, 13, 18 and 23, case-insensitive hex
digits everywhere else. -/
def isUuidFormat (s : String) : Bool :=
  let cs := s.data
  cs.length == 36 &&
    (List.range 36).all (fun i =>
      let c := cs.getD i ' '
      if i == 8 || i == 13 || i == 18 || i == 23 then c == '-'
      else isHexDigit c)

/-- The `DELETE /files/:id` handler (`src/routes/delete.js` lines 17-68):
reject a malformed file id with 400 before touching storage, then call
`storage.deleteFile` and map its error taxonomy; the Boolean records
whether the storage backend was reached. -/
def deleteRoute (blobs : List Blob) (fileId : String) (user : Identity)
    (fileScope : Option String) : Bool × Nat × String :=
  let scope := jsStrOr fileScope "user"
  if isUuidFormat fileId = false then (false, 400, "Bad Request")
  else
    match deleteFile blobs fileId user.tenantId user.id scope with
    | .ok _ => (true, 200, "OK")
    | .error .notFound => (true, 404, "Not Found")
    | .error .unauthorized => (true, 403, "Forbidden")

/-- The middleware stations a request can reach, in wiring order. -/
inductive Stage where
  | keyResolver
  | authorizationGate
  | rateLimiter
  | routeHandler
  | storageBackend
deriving DecidableEq, Repr

/-- The `DELETE /files/:id` pipeline as wired by the server factory with an
oracle configured: `authenticate` (which consults the key resolver) runs
first, then the authorization middleware, then the download-class rate
limiter, and only then the route handler with its UUID check and storage
call.  The first component lists the stations the request reached. -/
def deletePipeline (blobs : List Blob) (fileId : String)
    (auth : AuthResult) (oracle : OracleOutcome) (rateOk : Bool) :
    List Stage × Nat × String :=
  match auth with
  | .unauthorized _ => ([.keyResolver], 401, "Unauthorized")
  | .ok user =>
    let req : AuthzRequest :=
      { method := "DELETE", path := "/files/" ++ fileId }
    match createAuthorizationMw (some "http://api/files/authorize") 3000
        req oracle with
    | .respond status err _ =>
        ([.keyResolver, .authorizationGate], status, err)
    | .next scope =>
      if rateOk = false then
        ([.keyResolver, .authorizationGate, .rateLimiter], 429,
          "Too Many Requests")
      else
        let r := deleteRoute blobs fileId user (some scope)
        ([.keyResolver, .authorizationGate, .rateLimiter, .routeHandler]
           ++ (if r.1 then [.storageBackend] else []),
         r.2)

/-- The `GET /files/:id` handler of `createDownloadRouter` (the download
router document of `src/routes`): the same UUID-format rejection with 400
before touching storage, then `storage.downloadFile(fileId, tenantId,
userId)` — this router passes no scope argument, so the client's `'user'`
default applies — and the same error-taxonomy mapping; the Boolean records
whether the storage backend was reached. -/
def downloadRoute (blobs : List Blob) (fileId : String) (user : Identity) :
    Bool × Nat × String :=
  if isUuidFormat fileId = false then (false, 400, "Bad Request")
  else
    match downloadFile blobs fileId user.tenantId user.id "user" with
    | .ok _ => (true, 200, "OK")
    | .error .notFound => (true, 404, "Not Found")
    | .error .unauthorized => (true, 403, "Forbidden")

/-- The `GET /files/:id` pipeline as wired by the server factory with an
oracle configured: `authenticate, authorize, downloadLimiter,
createDownloadRouter(storage)`, with the same station bookkeeping as the
delete pipeline. -/
def downloadPipeline (blobs : List Blob) (fileId : String)
    (auth : AuthResult) (oracle : OracleOutcome) (rateOk : Bool) :
    List Stage × Nat × String :=
  match auth with
  | .unauthorized _ => ([.keyResolver], 401, "Unauthorized")
  | .ok user =>
    let req : AuthzRequest :=
      { method := "GET", path := "/files/" ++ fileId }
    match createAuthorizationMw (some "http://api/files/authorize") 3000
        req oracle with
    | .respond status err _ =>
        ([.keyResolver, .authorizationGate], status, err)
    | .next _scope =>
      if rateOk = false then
        ([.keyResolver, .authorizationGate, .rateLimiter], 429,
          "Too Many Requests")
      else
        let r := downloadRoute blobs fileId user
        ([.keyResolver, .authorizationGate, .rateLimiter, .routeHandler]
           ++ (if r.1 then [.storageBackend] else []),
         r.2)

/-! ## Concrete instances used by counterexamples and witnesses -/

/-- A configured auth server for a single issuer. -/
def c1Server : AuthServer :=
  { issuer := "https://issuer.example", jwksUrl := "https://issuer.example/jwks" }

/-- A published signing key with key id `k1`. -/
def c1Jwk : Jwk := { kid := "k1", material := "rsa-material" }

/-- A token from that issuer whose header declares `PS256` — outside the
allow-list — over a key that does validate its signature under `PS256`. -/
def c1Token : TokenModel :=
  { headerAlg := some "PS256"
    headerKid := some "k1"
    payload := { iss := some "https://issuer.example", sub := some "alice" }
    sigValidFor := fun a => a == "PS256" }

/-- A validly signed token carrying both a `sub` claim and an `id` claim
with different values. -/
def c4Token : TokenModel :=
  { headerAlg := some "RS256"
    payload := { sub := some "A", id := some "B" }
    sigValidFor := fun _ => true }

/-- A wildcard entry configured ahead of an exact-issuer entry. -/
def wildcardCfg : AuthServer := { issuer := "*", jwksUrl := "http://w/jwks" }

/-- The exact-issuer entry behind the wildcard. -/
def exactCfg : AuthServer :=
  { issuer := "https://a.example", jwksUrl := "http://a/jwks" }

/-- The identity of the end-to-end scenarios. -/
def c9Identity : Identity := { id := "u1", tenantId := some "t1" }

/-! ## Helper lemmas -/

theorem scanBlobs_append_no_match {α : Type} (fileId : String)
    (g : Blob → BlobMeta → Except StorageError α) (pre rest : List Blob)
    (h : ∀ x ∈ pre, blobScanMatch fileId x = false) :
    scanBlobs fileId g (pre ++ rest) = scanBlobs fileId g rest := by
  induction pre with
  | nil => rfl
  | cons b bs ih =>
    have hb := h b (by simp)
    have hbs : ∀ x ∈ bs, blobScanMatch fileId x = false :=
      fun x hx => h x (by simp [hx])
    rcases hm : b.metadata with _ | m
    · simpa [scanBlobs, hm] using ih hbs
    · have : (m.file_id == fileId) = false := by
        simpa [blobScanMatch, hm] using hb
      simpa [scanBlobs, hm, this] using ih hbs

theorem scanBlobs_tenant_ok {α : Type} (fileId userId : String)
    (payload : Blob → BlobMeta → α) (l : List Blob) :
    scanBlobs fileId
      (fun b m => ownershipGuard "tenant" userId m (payload b m)) l
      ≠ Except.error StorageError.unauthorized := by
  induction l with
  | nil => simp [scanBlobs]
  | cons b bs ih =>
    rcases hm : b.metadata with _ | m
    · simpa [scanBlobs, hm] using ih
    · by_cases hf : (m.file_id == fileId) = true
      · simp [scanBlobs, hm, hf, ownershipGuard]
      · simpa [scanBlobs, hm, hf] using ih

theorem fetchJwksMiss_spec (cache : JwksCache) (now : Nat) (key : String)
    (cfg : AuthServer) (net : FetchResult) :
    (fetchJwksMiss cache now key cfg net).fetches = 1
    ∧ (∀ j, net = FetchResult.ok j →
        fetchJwksMiss cache now key cfg net
          = ⟨Except.ok j, cacheSet cache key ⟨j, now⟩, 1⟩)
    ∧ (∀ s, net = FetchResult.httpError s →
        (∃ msg, (fetchJwksMiss cache now key cfg net).result
           = Except.error msg)
        ∧ (fetchJwksMiss cache now key cfg net).cache = cache) := by
  rcases net with j | s <;> simp [fetchJwksMiss]

theorem fetchJwks_stale_eq (cache : JwksCache) (now : Nat) (key : String)
    (cfg : AuthServer) (net : FetchResult)
    (h : ∀ e, cacheGet cache key = some e →
      effectiveTtlMs cfg ≤ now - e.fetchedAt) :
    fetchJwks cache now key cfg net = fetchJwksMiss cache now key cfg net := by
  unfold fetchJwks
  rcases hc : cacheGet cache key with _ | e
  · rfl
  · exact if_neg (by have := h e hc; omega)

/-! ## Claim C1 -/

/-- Claim C1 counterexample: a token declaring `PS256` — outside the
allow-list — verifies successfully end to end in JWKS mode, because the
middleware verifies with the singleton list holding the token's own
declared algorithm. -/
theorem jwks_mode_accepts_disallowed_algorithm :
    authenticateJwks [c1Server] [] 0 c1Token (FetchResult.ok ⟨[c1Jwk]⟩)
      = AuthResult.ok { id := "alice" }
    ∧ allowedAlgs.contains "PS256" = false
    ∧ c1Token.headerAlg = some "PS256" := by
  decide

/-- Claim C1 (amended): a token whose header declares an algorithm outside
the allow-list always fails verification in static-key mode; in JWKS mode
the key resolver hands back exactly the token's declared algorithm whenever
that header value is a non-empty string (an absent or empty header
algorithm falls back to `RS256`), and `jwt.verify` then runs with that
singleton allow-list, so such a token verifies successfully whenever its
signature is valid under the declared algorithm and it is unexpired. -/
theorem algorithm_allowlist_by_mode (tok : TokenModel) (A : String)
    (halg : tok.headerAlg = some A)
    (hA : A ≠ "")
    (hout : allowedAlgs.contains A = false) :
    (∀ u, authenticateJWT tok ≠ AuthResult.ok u)
    ∧ (tok.sigValidFor A = true → tok.expired = false →
        jwtVerify [A] tok = Except.ok tok.payload)
    ∧ (∀ (servers : List AuthServer) (cache : JwksCache) (now : Nat)
        (net : FetchResult) (jwk : Jwk) (alg : String) (c' : JwksCache),
        getSigningKey servers cache now tok net = Except.ok (jwk, alg, c') →
        alg = A) := by
  refine ⟨?_, ?_, ?_⟩
  · intro u h
    unfold authenticateJWT jwtVerify at h
    rw [halg] at h
    simp only [Option.getD_some, hout] at h
    simp at h
  · intro hsig hexp
    simp [jwtVerify, halg, hsig, hexp]
  · intro servers cache now net jwk alg c' h
    simp only [getSigningKey] at h
    split at h
    · exact absurd h (by simp)
    · split at h
      · exact absurd h (by simp)
      · split at h
        · exact absurd h (by simp)
        · rw [halg] at h
          have hjs : jsStrOr (some A) "RS256" = A := by
            simp [jsStrOr, optTruthy, hA]
          rw [hjs] at h
          simp only [Except.ok.injEq, Prod.mk.injEq] at h
          exact h.2.1.symm

/-- Claim C1 amended, instantiated at the `PS256` token: static mode
rejects it, and its declared algorithm is what JWKS-mode verification will
allow. -/
theorem algorithm_allowlist_by_mode_witness :
    (∀ u, authenticateJWT c1Token ≠ AuthResult.ok u)
    ∧ (c1Token.sigValidFor "PS256" = true → c1Token.expired = false →
        jwtVerify ["PS256"] c1Token = Except.ok c1Token.payload)
    ∧ (∀ (servers : List AuthServer) (cache : JwksCache) (now : Nat)
        (net : FetchResult) (jwk : Jwk) (alg : String) (c' : JwksCache),
        getSigningKey servers cache now c1Token net
          = Except.ok (jwk, alg, c') → alg = "PS256") :=
  algorithm_allowlist_by_mode c1Token "PS256" rfl (by decide) (by decide)

/-! ## Claim C2 -/

/-- Claim C2: for a request that maps to a file action, an oracle timeout
(the `AbortError` raised when the abort controller cancels the in-flight
call) or any other network/transport failure makes the middleware respond
503 Service Unavailable — it never calls `next`, so the request is never
allowed through. -/
theorem authorize_fail_closed (req : AuthzRequest) (oracle : OracleOutcome)
    (a : String)
    (hact : determineAction req.method req.path = some a)
    (hfail : oracle = OracleOutcome.timeout
      ∨ ∃ m, oracle = OracleOutcome.networkError m) :
    authorizeConfigured req oracle
      = MwStep.respond 503 "Service Unavailable"
          "Authorization service unavailable"
    ∧ ∀ s, authorizeConfigured req oracle ≠ MwStep.next s := by
  have heq : authorizeConfigured req oracle
      = MwStep.respond 503 "Service Unavailable"
          "Authorization service unavailable" := by
    rcases hfail with rfl | ⟨m, rfl⟩ <;> simp [authorizeConfigured, hact]
  exact ⟨heq, fun s h => by rw [heq] at h; exact MwStep.noConfusion h⟩

/-- Claim C2 at a concrete request: a `DELETE /files/...` whose oracle call
times out is denied with 503. -/
theorem authorize_fail_closed_witness :
    authorizeConfigured
      { method := "DELETE", path := "/files/abc" } OracleOutcome.timeout
      = MwStep.respond 503 "Service Unavailable"
          "Authorization service unavailable" :=
  (authorize_fail_closed { method := "DELETE", path := "/files/abc" }
    OracleOutcome.timeout "delete" (by decide) (Or.inl rfl)).1

/-! ## Claim C4 -/

/-- Claim C4 is violated by the code: for a valid token carrying
`sub = "A"` and `id = "B"`, the attached identity's id is `"B"` — the
trailing `...decoded` spread overrides the priority-resolved subject,
whereas the first present non-empty claim in priority order
`[sub, user_id, userId, id]` is `"A"`. -/
theorem spread_overrides_priority_subject :
    authenticateJWT c4Token = AuthResult.ok { id := "B" }
    ∧ prioritySubject c4Token.payload = some "A"
    ∧ ("B" : String) ≠ "A" := by
  decide

/-! ## Claim C5 -/

/-- Claim C5 counterexample: with a wildcard entry configured ahead of an
exact-issuer entry, the wildcard is selected even though an exact match
exists, because selection is a single pass over
`issuer === iss || issuer === '*'`. -/
theorem selectServer_wildcard_shadows_exact :
    selectServer [wildcardCfg, exactCfg] (some "https://a.example")
      = some wildcardCfg
    ∧ exactCfg ∈ [wildcardCfg, exactCfg]
    ∧ exactCfg.issuer = "https://a.example"
    ∧ wildcardCfg.issuer ≠ "https://a.example" := by
  decide

/-- Claim C5 (amended): the selected server is the first configured entry
whose issuer equals the token's issuer claim or is the wildcard `"*"`
(exact match and wildcard share one precedence tier, in configuration
order), falling back to the first configured entry when no entry matches;
resolution fails when the configured set is empty. -/
theorem selectServer_first_match_rule (servers pre post : List AuthServer)
    (s : AuthServer) (iss : Option String) :
    selectServer [] iss = none
    ∧ ((∀ t ∈ pre, serverMatches iss t = false) →
        serverMatches iss s = true →
        selectServer (pre ++ s :: post) iss = some s)
    ∧ ((∀ t ∈ servers, serverMatches iss t = false) →
        selectServer servers iss = servers.head?) := by
  refine ⟨rfl, ?_, ?_⟩
  · intro hpre hs
    have hnone : pre.find? (serverMatches iss) = none :=
      List.find?_eq_none.mpr (fun x hx => by simp [hpre x hx])
    simp [selectServer, List.find?_append, hnone, List.find?_cons, hs]
  · intro hall
    have hnone : servers.find? (serverMatches iss) = none :=
      List.find?_eq_none.mpr (fun x hx => by simp [hall x hx])
    simp [selectServer, hnone]

/-- Claim C5 amended, instantiated: a lone exact-issuer entry is selected
for its own issuer. -/
theorem selectServer_first_match_rule_witness :
    selectServer ([] ++ exactCfg :: []) (some "https://a.example")
      = some exactCfg :=
  (selectServer_first_match_rule [] [] [] exactCfg
      (some "https://a.example")).2.1
    (by simp) (by decide)

/-! ## Claim C7 -/

/-- Claim C7: with no oracle URL configured the middleware always calls
`next` with scope `user`, for every request, and its outcome does not
depend on any oracle interaction — it never blocks on one. -/
theorem authorize_no_oracle_passthrough (req : AuthzRequest)
    (o1 o2 : OracleOutcome) (t : Nat) :
    createAuthorizationMw none t req o1 = MwStep.next "user"
    ∧ createAuthorizationMw none t req o1
        = createAuthorizationMw none t req o2 := by
  simp [createAuthorizationMw, optTruthy]

/-! ## Claim C3 -/

/-- A blob under the `t1/u1/` path root whose stored owner is `u2`. -/
def c3Blob : Blob :=
  { name := "t1/u1/fid.txt"
    metadata := some { user_id := "u2", file_id := "fid1" } }

/-- Claim C3: on the first prefix-listed blob carrying the requested
`file_id`, user scope fails with the Unauthorized error whenever the stored
owner differs from the requesting user; tenant scope never produces that
error; and the Unauthorized error is distinct from Not-Found. -/
theorem ownership_check_by_scope (blobs pre post : List Blob) (b : Blob)
    (m : BlobMeta) (fileId uid : String) (tid : Option String) :
    (blobs.filter (fun x => jsStartsWith x.name (blobDir tid uid "user"))
        = pre ++ b :: post →
      (∀ x ∈ pre, blobScanMatch fileId x = false) →
      b.metadata = some m → m.file_id = fileId → m.user_id ≠ uid →
      deleteFile blobs fileId tid uid "user"
          = Except.error StorageError.unauthorized
      ∧ downloadFile blobs fileId tid uid "user"
          = Except.error StorageError.unauthorized)
    ∧ (deleteFile blobs fileId tid uid "tenant"
          ≠ Except.error StorageError.unauthorized
      ∧ downloadFile blobs fileId tid uid "tenant"
          ≠ Except.error StorageError.unauthorized)
    ∧ StorageError.unauthorized ≠ StorageError.notFound := by
  refine ⟨?_, ⟨?_, ?_⟩, by simp⟩
  · intro hfilter hpre hmeta hfid howner
    have hbeq : (m.user_id == uid) = false := beq_eq_false_iff_ne.mpr howner
    constructor
    · unfold deleteFile
      rw [hfilter, scanBlobs_append_no_match fileId _ pre _ hpre]
      simp [scanBlobs, hmeta, hfid, ownershipGuard, hbeq]
    · unfold downloadFile
      rw [hfilter, scanBlobs_append_no_match fileId _ pre _ hpre]
      simp [scanBlobs, hmeta, hfid, ownershipGuard, hbeq]
  · unfold deleteFile
    exact scanBlobs_tenant_ok fileId uid (fun b _ => b.name) _
  · unfold downloadFile
    exact scanBlobs_tenant_ok fileId uid
      (fun _ m => (⟨m.original_filename, m.content_type⟩ : DownloadResult)) _

/-- Claim C3 at a concrete store: caller `u1` asking to delete or download
a file whose stored owner is `u2` under user scope gets the Unauthorized
error. -/
theorem ownership_check_by_scope_witness :
    deleteFile [c3Blob] "fid1" (some "t1") "u1" "user"
        = Except.error StorageError.unauthorized
    ∧ downloadFile [c3Blob] "fid1" (some "t1") "u1" "user"
        = Except.error StorageError.unauthorized :=
  (ownership_check_by_scope [c3Blob] [] [] c3Blob
      { user_id := "u2", file_id := "fid1" } "fid1" "u1" (some "t1")).1
    (by decide) (by simp) rfl rfl (by decide)

/-! ## Claim C6 -/

/-- Claim C6: `fetchJwks` serves the cached key set with zero network
fetches exactly when the entry is present and `now - fetchedAt` is below
the TTL; when the entry is absent or stale it performs exactly one fetch,
stores the fresh key set under the issuer key on success, and surfaces a
thrown error on a non-success response while leaving the cache alone. -/
theorem fetchJwks_cache_policy (cache : JwksCache) (now : Nat) (key : String)
    (cfg : AuthServer) (net : FetchResult) :
    (∀ e, cacheGet cache key = some e →
        now - e.fetchedAt < effectiveTtlMs cfg →
        fetchJwks cache now key cfg net = ⟨Except.ok e.jwks, cache, 0⟩)
    ∧ ((∀ e, cacheGet cache key = some e →
          effectiveTtlMs cfg ≤ now - e.fetchedAt) →
        ((fetchJwks cache now key cfg net).fetches = 1
         ∧ (∀ j, net = FetchResult.ok j →
              fetchJwks cache now key cfg net
                = ⟨Except.ok j, cacheSet cache key ⟨j, now⟩, 1⟩)
         ∧ (∀ s, net = FetchResult.httpError s →
              (∃ msg, (fetchJwks cache now key cfg net).result
                 = Except.error msg)
              ∧ (fetchJwks cache now key cfg net).cache = cache)))
    ∧ ((fetchJwks cache now key cfg net).fetches = 0 ↔
        ∃ e, cacheGet cache key = some e
          ∧ now - e.fetchedAt < effectiveTtlMs cfg) := by
  have hmiss := fetchJwksMiss_spec cache now key cfg net
  refine ⟨?_, ?_, ?_, ?_⟩
  · intro e he hf
    simp [fetchJwks, he, hf]
  · intro hstale
    rw [fetchJwks_stale_eq cache now key cfg net hstale]
    exact hmiss
  · intro h0
    by_cases hex : ∃ e, cacheGet cache key = some e
        ∧ now - e.fetchedAt < effectiveTtlMs cfg
    · exact hex
    · exfalso
      push_neg at hex
      rw [fetchJwks_stale_eq cache now key cfg net hex, hmiss.1] at h0
      exact one_ne_zero h0
  · rintro ⟨e, he, hf⟩
    simp [fetchJwks, he, hf]

/-- A cached key set fetched at time 100. -/
def c6Entry : CacheEntry := { jwks := ⟨[c1Jwk]⟩, fetchedAt := 100 }

/-- A cache holding that entry for the example issuer. -/
def c6Cache : JwksCache := [("https://issuer.example", c6Entry)]

/-- Claim C6 at a concrete cache: a fresh entry (age 50 ms, TTL one hour)
is served with no fetch — even when the network would fail. -/
theorem fetchJwks_cache_policy_witness :
    fetchJwks c6Cache 150 "https://issuer.example" c1Server
        (FetchResult.httpError 500)
      = ⟨Except.ok c6Entry.jwks, c6Cache, 0⟩ :=
  (fetchJwks_cache_policy c6Cache 150 "https://issuer.example" c1Server
      (FetchResult.httpError 500)).1 c6Entry (by decide) (by decide)

/-! ## Claim C8 -/

/-- Claim C8: the scope-based path root is `tenantId/shared/` for tenant
scope (just `shared/` without a tenant), `tenantId/userId/` for user scope
(just `userId/` without a tenant); in particular identity `u1` in tenant
`t1` gets `t1/u1/` under user scope and `t1/shared/` under tenant scope. -/
theorem blobDir_scope_rule (t u : String) :
    (t ≠ "" → blobDir (some t) u "tenant" = t ++ "/shared/")
    ∧ blobDir none u "tenant" = "shared/"
    ∧ (t ≠ "" → blobDir (some t) u "user" = t ++ "/" ++ u ++ "/")
    ∧ blobDir none u "user" = u ++ "/"
    ∧ blobDir (some "t1") "u1" "user" = "t1/u1/"
    ∧ blobDir (some "t1") "u1" "tenant" = "t1/shared/" := by
  refine ⟨?_, by simp [blobDir, optTruthy], ?_,
    by simp [blobDir, optTruthy], by decide, by decide⟩
  · intro ht
    simp [blobDir, optTruthy, ht]
  · intro ht
    simp [blobDir, optTruthy, ht]

/-- Claim C8 at the end-to-end identity: tenant scope for `t1` yields the
`t1/shared/` root. -/
theorem blobDir_scope_rule_witness :
    blobDir (some "t1") "u1" "tenant" = "t1" ++ "/shared/" :=
  (blobDir_scope_rule "t1" "u1").1 (by decide)

/-! ## Claim C9 -/

/-- Claim C9 counterexample: a `DELETE /files/not-a-uuid` request with a
valid token and a permissive oracle is rejected 400 by the route handler —
but only after the key resolver, the authorization gate and the rate
limiter have all run, so the rejection does not happen before those
stations. -/
theorem malformed_fileId_reaches_gates :
    deletePipeline [] "not-a-uuid" (AuthResult.ok c9Identity)
        (OracleOutcome.response 200 true (some "user") none) true
      = ([Stage.keyResolver, Stage.authorizationGate, Stage.rateLimiter,
          Stage.routeHandler], 400, "Bad Request")
    ∧ Stage.keyResolver ∈ [Stage.keyResolver, Stage.authorizationGate,
        Stage.rateLimiter, Stage.routeHandler]
    ∧ Stage.authorizationGate ∈ [Stage.keyResolver, Stage.authorizationGate,
        Stage.rateLimiter, Stage.routeHandler]
    ∧ isUuidFormat "not-a-uuid" = false := by
  decide

/-- Claim C9 (amended): a resource-addressed request — `DELETE /files/:id`
or `GET /files/:id` — whose id fails the UUID pattern is rejected with 400
by its route handler before the storage backend is reached, but after
authentication, authorization and rate limiting have already run on the
request. -/
theorem malformed_fileId_rejected_at_route (blobs : List Blob) (fid : String)
    (user : Identity) (oracleD oracleG : OracleOutcome)
    (scopeD scopeG : String)
    (hm : isUuidFormat fid = false)
    (hnextD : createAuthorizationMw (some "http://api/files/authorize") 3000
        { method := "DELETE", path := "/files/" ++ fid } oracleD
      = MwStep.next scopeD)
    (hnextG : createAuthorizationMw (some "http://api/files/authorize") 3000
        { method := "GET", path := "/files/" ++ fid } oracleG
      = MwStep.next scopeG) :
    (deletePipeline blobs fid (AuthResult.ok user) oracleD true).2
        = (400, "Bad Request")
    ∧ Stage.storageBackend
        ∉ (deletePipeline blobs fid (AuthResult.ok user) oracleD true).1
    ∧ Stage.keyResolver
        ∈ (deletePipeline blobs fid (AuthResult.ok user) oracleD true).1
    ∧ Stage.authorizationGate
        ∈ (deletePipeline blobs fid (AuthResult.ok user) oracleD true).1
    ∧ Stage.rateLimiter
        ∈ (deletePipeline blobs fid (AuthResult.ok user) oracleD true).1
    ∧ (downloadPipeline blobs fid (AuthResult.ok user) oracleG true).2
        = (400, "Bad Request")
    ∧ Stage.storageBackend
        ∉ (downloadPipeline blobs fid (AuthResult.ok user) oracleG true).1
    ∧ Stage.keyResolver
        ∈ (downloadPipeline blobs fid (AuthResult.ok user) oracleG true).1
    ∧ Stage.authorizationGate
        ∈ (downloadPipeline blobs fid (AuthResult.ok user) oracleG true).1
    ∧ Stage.rateLimiter
        ∈ (downloadPipeline blobs fid (AuthResult.ok user) oracleG true).1
    := by
  have hpipeD : deletePipeline blobs fid (AuthResult.ok user) oracleD true
      = ([Stage.keyResolver, Stage.authorizationGate, Stage.rateLimiter,
          Stage.routeHandler], 400, "Bad Request") := by
    simp [deletePipeline, hnextD, deleteRoute, hm]
  have hpipeG : downloadPipeline blobs fid (AuthResult.ok user) oracleG true
      = ([Stage.keyResolver, Stage.authorizationGate, Stage.rateLimiter,
          Stage.routeHandler], 400, "Bad Request") := by
    simp [downloadPipeline, hnextG, downloadRoute, hm]
  rw [hpipeD, hpipeG]
  exact ⟨rfl, by decide, by decide, by decide, by decide,
    rfl, by decide, by decide, by decide, by decide⟩

/-- Claim C9 amended, at a concrete malformed id: a `DELETE /files/abc` and
a `GET /files/abc` after a passing token and a permissive oracle both end
400 without reaching storage. -/
theorem malformed_fileId_rejected_at_route_witness :
    (deletePipeline [] "abc" (AuthResult.ok { id := "u9" })
        (OracleOutcome.response 200 true none none) true).2
        = (400, "Bad Request")
    ∧ Stage.storageBackend
        ∉ (deletePipeline [] "abc" (AuthResult.ok { id := "u9" })
            (OracleOutcome.response 200 true none none) true).1
    ∧ Stage.keyResolver
        ∈ (deletePipeline [] "abc" (AuthResult.ok { id := "u9" })
            (OracleOutcome.response 200 true none none) true).1
    ∧ Stage.authorizationGate
        ∈ (deletePipeline [] "abc" (AuthResult.ok { id := "u9" })
            (OracleOutcome.response 200 true none none) true).1
    ∧ Stage.rateLimiter
        ∈ (deletePipeline [] "abc" (AuthResult.ok { id := "u9" })
            (OracleOutcome.response 200 true none none) true).1
    ∧ (downloadPipeline [] "abc" (AuthResult.ok { id := "u9" })
        (OracleOutcome.response 200 true none none) true).2
        = (400, "Bad Request")
    ∧ Stage.storageBackend
        ∉ (downloadPipeline [] "abc" (AuthResult.ok { id := "u9" })
            (OracleOutcome.response 200 true none none) true).1
    ∧ Stage.keyResolver
        ∈ (downloadPipeline [] "abc" (AuthResult.ok { id := "u9" })
            (OracleOutcome.response 200 true none none) true).1
    ∧ Stage.authorizationGate
        ∈ (downloadPipeline [] "abc" (AuthResult.ok { id := "u9" })
            (OracleOutcome.response 200 true none none) true).1
    ∧ Stage.rateLimiter
        ∈ (downloadPipeline [] "abc" (AuthResult.ok { id := "u9" })
            (OracleOutcome.response 200 true none none) true).1 :=
  malformed_fileId_rejected_at_route [] "abc" { id := "u9" }
    (OracleOutcome.response 200 true none none)
    (OracleOutcome.response 200 true none none) "user" "user"
    (by decide) (by decide) (by decide)

/-! ## Claim C10 -/

/-- Claim C10: when the remote fetch answers with a non-success status,
`fetchJwks` surfaces the thrown error and the cache is exactly what it was
— a previously cached entry survives untouched and no entry appears where
none existed. -/
theorem fetchJwks_failed_fetch_preserves_cache (cache : JwksCache)
    (now : Nat) (key : String) (cfg : AuthServer) (s : Nat)
    (h : ∀ e, cacheGet cache key = some e →
      effectiveTtlMs cfg ≤ now - e.fetchedAt) :
    (∃ msg, (fetchJwks cache now key cfg (FetchResult.httpError s)).result
        = Except.error msg)
    ∧ (fetchJwks cache now key cfg (FetchResult.httpError s)).cache = cache
    ∧ cacheGet (fetchJwks cache now key cfg (FetchResult.httpError s)).cache
        key = cacheGet cache key := by
  rw [fetchJwks_stale_eq cache now key cfg (FetchResult.httpError s) h]
  exact ⟨⟨_, rfl⟩, rfl, rfl⟩

/-- Claim C10 at an empty cache: a 500 from the key-set endpoint propagates
as an error and creates no cache entry. -/
theorem fetchJwks_failed_fetch_preserves_cache_witness :
    (∃ msg, (fetchJwks [] 0 "https://issuer.example" c1Server
        (FetchResult.httpError 500)).result = Except.error msg)
    ∧ (fetchJwks [] 0 "https://issuer.example" c1Server
        (FetchResult.httpError 500)).cache = []
    ∧ cacheGet (fetchJwks [] 0 "https://issuer.example" c1Server
        (FetchResult.httpError 500)).cache "https://issuer.example"
      = cacheGet [] "https://issuer.example" :=
  fetchJwks_failed_fetch_preserves_cache [] 0 "https://issuer.example"
    c1Server 500 (fun e he => absurd he (by simp [cacheGet]))

end StoneFiles
